import Mathlib

/-!
# Verification of the twitter.js pagination and streaming core

Shallow embedding of the `SearchTweetsBook` paginator (`src/books/SearchTweetsBook.ts`,
the `BaseBook` variant at lines 87-199) and of the `Client` stream handlers and
login/factory methods (`Client.#connectToFilteredStream`, `Client.#connectToSampledStream`,
`Client.loginWithBearerToken`, `Client.createBook`).

JavaScript conventions captured by the embedding:
* a field of TypeScript type `T | undefined` or `T | null` becomes `Option T`;
* JavaScript truthiness tests (`if (x)`, `x ? a : b`, `!x`) on strings and
  numbers are made explicit via `jsTruthy*` (empty string and zero are falsy);
* a method that can `throw` returns `Except`;
* the single awaited transport response of one `fetchNextPage` call is passed
  in as an argument; the query object actually sent is reported in the result
  so that "no transport call was issued" is expressible (`issuedQuery = none`).
-/

/-! ## JavaScript truthiness -/

/-- JS truthiness of a string: the empty string is falsy. -/
def jsTruthy (s : String) : Bool := s ≠ ""

/-- JS truthiness of `string | undefined | null` (`Option String`). -/
def jsTruthyOptStr : Option String → Bool
  | none => false
  | some s => jsTruthy s

/-- JS truthiness of `number | undefined | null` (`Option Int`, fractional
values being irrelevant to every claim): `0` is falsy. -/
def jsTruthyOptInt : Option Int → Bool
  | none => false
  | some n => n ≠ 0

/-! ## Collection (JS `Map` as used by `@discordjs/collection`)

`Collection` extends the ECMAScript `Map`: insertion-ordered entries;
`set` on an existing key updates the value in place, keeping the key's
original position; `set` on a new key appends. -/

/-- An insertion-ordered map, as a list of key/value pairs. -/
abbrev Collection (K V : Type) : Type := List (K × V)

/-- The empty collection (`new Collection()`). -/
def Collection.empty {K V : Type} : Collection K V := []

/-- JS `Map.prototype.set`: update in place if the key is present, else append. -/
def Collection.set {K V : Type} [BEq K] : Collection K V → K → V → Collection K V
  | [], k, v => [(k, v)]
  | (k', v') :: rest, k, v =>
      if k' == k then (k', v) :: rest else (k', v') :: Collection.set rest k v

/-- The keys of a collection, in entry order. -/
def Collection.keysList {K V : Type} (c : Collection K V) : List K :=
  c.map Prod.fst

/-- JS `Map.prototype.size`. -/
def Collection.size {K V : Type} (c : Collection K V) : Nat := c.length

/-! ## Data model of the search endpoint response -/

/-- One raw tweet object of the `data` array of a search response.  Only the
`id` field is ever read by the code under verification; the remaining payload
fields are irrelevant to every claim and are not modelled. -/
structure RawTweet where
  id : String
  deriving DecidableEq, Repr

/-- The `meta` object of a `GetTweetSearchResponse`. -/
structure SearchMeta where
  next_token : Option String
  result_count : Nat
  deriving DecidableEq, Repr

/-- A decoded `GetTweetSearchResponse`: `data`, `includes`, `meta`.  The
`includes` side-table is only passed through to the tweet cache; its shape is
irrelevant to every claim and is modelled as an opaque optional tag. -/
structure GetTweetSearchResponse where
  data : List RawTweet
  includes : Option String := none
  meta : SearchMeta
  deriving DecidableEq, Repr

/-- A cached `Tweet` entity as returned by `client.tweets.add`. -/
structure Tweet where
  id : String
  data : RawTweet
  includes : Option String
  deriving DecidableEq, Repr

/-- Modelled from the spec: `TweetManager.add` (its source is not under
`src/`; only its caller is).  Per the spec, the EntityStore upserts the raw
object and returns the single canonical cached entity keyed by the supplied
identifier. -/
def TweetManager.add (id : String) (data : RawTweet) (includes : Option String) : Tweet :=
  { id := id, data := data, includes := includes }

/-! ## The query object built by `SearchTweetsBook.#fetchPages` -/

/-- The client's configured `queryParameters` (field selections threaded
verbatim into every query). -/
structure QueryParameters where
  tweetExpansions : Option (List String) := none
  tweetFields : Option (List String) := none
  userFields : Option (List String) := none
  mediaFields : Option (List String) := none
  placeFields : Option (List String) := none
  pollFields : Option (List String) := none
  deriving DecidableEq, Repr

/-- The `GetTweetSearchQuery` object sent to the transport, field for field
as built at `SearchTweetsBook.ts:172-186`. -/
structure GetTweetSearchQuery where
  expansions : Option (List String)
  tweetFields : Option (List String)
  userFields : Option (List String)
  mediaFields : Option (List String)
  placeFields : Option (List String)
  pollFields : Option (List String)
  query : String
  next_token : Option String
  since_id : Option String := none
  until_id : Option String := none
  max_results : Option Int := none
  start_time : Option String := none
  end_time : Option String := none
  deriving DecidableEq, Repr

/-- Models the JS platform call `new Date(t).toISOString()` on a millisecond
timestamp: a deterministic, injective rendering of the timestamp.  The exact
ISO-8601 text is irrelevant to every claim, which only require that the value
is determined by the (immutable) timestamp. -/
def dateToISOString (t : Int) : String := "iso8601:" ++ toString t

/-! ## SearchTweetsBook -/

/-- The options accepted by the `SearchTweetsBook` constructor, at their
TypeScript-declared types (`SearchTweetsBookOptions`). -/
structure SearchTweetsBookOptions where
  query : String
  afterTweetId : Option String := none
  beforeTweetId : Option String := none
  afterTimestamp : Option Int := none
  beforeTimestamp : Option Int := none
  maxResultsPerPage : Option Int := none
  deriving DecidableEq, Repr

/-- The state of one `SearchTweetsBook` instance.  `nextToken` is the private
`#nextToken` (`undefined` initially), `hasMadeInitialRequest` the private
`#hasMadeInitialRequest` (`undefined`, i.e. falsy, initially).
`clientQueryParameters` stands for `this.client.options.queryParameters`. -/
structure SearchTweetsBook where
  nextToken : Option String
  hasMadeInitialRequest : Bool
  maxResultsPerPage : Option Int
  hasMore : Bool
  query : String
  afterTweetId : Option String
  beforeTweetId : Option String
  afterTimestamp : Option Int
  beforeTimestamp : Option Int
  clientQueryParameters : Option QueryParameters
  deriving DecidableEq, Repr

/-- The `SearchTweetsBook` constructor (`SearchTweetsBook.ts:143-152`). -/
def SearchTweetsBook.construct (clientQueryParameters : Option QueryParameters)
    (options : SearchTweetsBookOptions) : SearchTweetsBook :=
  { nextToken := none
    hasMadeInitialRequest := false
    hasMore := true
    query := options.query
    afterTweetId := options.afterTweetId
    beforeTweetId := options.beforeTweetId
    afterTimestamp := options.afterTimestamp
    beforeTimestamp := options.beforeTimestamp
    maxResultsPerPage := options.maxResultsPerPage
    clientQueryParameters := clientQueryParameters }

/-- The query object built by `#fetchPages` (`SearchTweetsBook.ts:172-186`):
the base object literal, then the five truthiness-guarded range-bound
assignments. -/
def SearchTweetsBook.buildQuery (b : SearchTweetsBook) (token : Option String) :
    GetTweetSearchQuery :=
  let q0 : GetTweetSearchQuery :=
    { expansions := b.clientQueryParameters.bind QueryParameters.tweetExpansions
      tweetFields := b.clientQueryParameters.bind QueryParameters.tweetFields
      userFields := b.clientQueryParameters.bind QueryParameters.userFields
      mediaFields := b.clientQueryParameters.bind QueryParameters.mediaFields
      placeFields := b.clientQueryParameters.bind QueryParameters.placeFields
      pollFields := b.clientQueryParameters.bind QueryParameters.pollFields
      query := b.query
      next_token := token }
  let q1 := if jsTruthyOptStr b.afterTweetId then { q0 with since_id := b.afterTweetId } else q0
  let q2 := if jsTruthyOptStr b.beforeTweetId then { q1 with until_id := b.beforeTweetId } else q1
  let q3 := if jsTruthyOptInt b.maxResultsPerPage then
      { q2 with max_results := b.maxResultsPerPage } else q2
  let q4 := if jsTruthyOptInt b.afterTimestamp then
      { q3 with start_time := b.afterTimestamp.map dateToISOString } else q3
  let q5 := if jsTruthyOptInt b.beforeTimestamp then
      { q4 with end_time := b.beforeTimestamp.map dateToISOString } else q4
  q5

/-- The errors a `fetchNextPage` call can surface: the
CustomError with code PAGINATED_RESPONSE_TAIL_REACHED thrown by the exhaustion
guard (the spec's `PaginationExhausted` condition), or a transport failure
propagated unchanged from the awaited API call. -/
inductive FetchError where
  | customError (code : String)
  | transport (e : String)
  deriving DecidableEq, Repr

/-- The observable result of one `fetchNextPage` call: the book state after
the call (mutations of `this` persist even when the call throws), the value
returned or error thrown, and the query actually handed to the transport
(`none` exactly when no transport call was issued). -/
structure FetchCall where
  book : SearchTweetsBook
  outcome : Except FetchError (Collection String Tweet)
  issuedQuery : Option GetTweetSearchQuery

/-- The entity-collecting loop of `#fetchPages` (`SearchTweetsBook.ts:194-197`):
each raw tweet is upserted through the tweet manager and the returned cached
entity is `set` into the collection under its own id. -/
def SearchTweetsBook.collectTweets (rawTweets : List RawTweet)
    (rawIncludes : Option String) : Collection String Tweet :=
  rawTweets.foldl
    (fun col rawTweet =>
      let tweet := TweetManager.add rawTweet.id rawTweet rawIncludes
      col.set tweet.id tweet)
    Collection.empty

/-- The private method `SearchTweetsBook.#fetchPages` (`SearchTweetsBook.ts:169-199`).  Here `resp` is
the awaited result of `this.client._api.tweets.search.recent.get(requestData)`;
when it is an error the `await` throws, so no field of `this` assigned after
the `await` changes. -/
def SearchTweetsBook.fetchPages (b : SearchTweetsBook) (token : Option String)
    (resp : Except String GetTweetSearchResponse) : FetchCall :=
  let query := b.buildQuery token
  match resp with
  | .error e => { book := b, outcome := .error (.transport e), issuedQuery := some query }
  | .ok data =>
      let b' := { b with
        nextToken := data.meta.next_token
        hasMore := jsTruthyOptStr data.meta.next_token }
      if data.meta.result_count = 0 then
        { book := b', outcome := .ok Collection.empty, issuedQuery := some query }
      else
        { book := b'
          outcome := .ok (SearchTweetsBook.collectTweets data.data data.includes)
          issuedQuery := some query }

/-- The method `SearchTweetsBook.fetchNextPage` (`SearchTweetsBook.ts:158-165`): on the
first ever call, set `#hasMadeInitialRequest` and fetch with no token; else
throw `PAGINATED_RESPONSE_TAIL_REACHED` when `#nextToken` is falsy; else
fetch with the stored token. -/
def SearchTweetsBook.fetchNextPage (b : SearchTweetsBook)
    (resp : Except String GetTweetSearchResponse) : FetchCall :=
  if b.hasMadeInitialRequest = false then
    let b' := { b with hasMadeInitialRequest := true }
    b'.fetchPages none resp
  else if jsTruthyOptStr b.nextToken = false then
    { book := b
      outcome := .error (.customError "PAGINATED_RESPONSE_TAIL_REACHED")
      issuedQuery := none }
  else
    b.fetchPages b.nextToken resp

/-- A sequence of `fetchNextPage` calls on one book, each consuming the next
transport response of the list; records every call's observable result. -/
def SearchTweetsBook.runFetches (b : SearchTweetsBook) :
    List (Except String GetTweetSearchResponse) → List FetchCall
  | [] => []
  | resp :: rest =>
      let c := b.fetchNextPage resp
      c :: c.book.runFetches rest

/-! ## JSON values and a model of `JSON.parse`

The stream handlers feed each transport chunk to `JSON.parse`.  `Json.num`
stores the validated numeric literal text: no claim inspects numeric values,
so JS float semantics never enter the development. -/

/-- A decoded JSON value. -/
inductive Json where
  | null
  | bool (b : Bool)
  | num (lit : String)
  | str (s : String)
  | arr (items : List Json)
  | obj (fields : List (String × Json))

mutual

/-- Structural equality of JSON values. -/
def Json.beq : Json → Json → Bool
  | .null, .null => true
  | .bool a, .bool b => a == b
  | .num a, .num b => a == b
  | .str a, .str b => a == b
  | .arr a, .arr b => Json.beqList a b
  | .obj a, .obj b => Json.beqFields a b
  | _, _ => false

/-- Elementwise equality of JSON arrays. -/
def Json.beqList : List Json → List Json → Bool
  | [], [] => true
  | a :: as, b :: bs => Json.beq a b && Json.beqList as bs
  | _, _ => false

/-- Elementwise equality of JSON object member lists. -/
def Json.beqFields : List (String × Json) → List (String × Json) → Bool
  | [], [] => true
  | (k1, v1) :: as, (k2, v2) :: bs => k1 == k2 && Json.beq v1 v2 && Json.beqFields as bs
  | _, _ => false

end

instance : BEq Json := ⟨Json.beq⟩

/-- Skip JSON whitespace (space, tab, line feed, carriage return). -/
def Json.skipWs : List Char → List Char
  | [] => []
  | c :: rest =>
      if c = ' ' ∨ c = '\n' ∨ c = '\t' ∨ c = '\x0d' then Json.skipWs rest else c :: rest

/-- The value of a hexadecimal digit. -/
def Json.hexVal (c : Char) : Option Nat :=
  if '0' ≤ c ∧ c ≤ '9' then some (c.toNat - '0'.toNat)
  else if 'a' ≤ c ∧ c ≤ 'f' then some (c.toNat - 'a'.toNat + 10)
  else if 'A' ≤ c ∧ c ≤ 'F' then some (c.toNat - 'A'.toNat + 10)
  else none

/-- Decimal digit test. -/
def Json.isDigitCh (c : Char) : Bool := '0' ≤ c ∧ c ≤ '9'

/-- Parse the body of a JSON string literal (the opening quote already
consumed): escapes are decoded, an unescaped control character or an
unterminated literal is a syntax error. -/
def Json.parseStringBody (acc : List Char) : List Char → Option (String × List Char)
  | [] => none
  | '"' :: rest => some (String.mk acc.reverse, rest)
  | '\\' :: '"' :: rest => Json.parseStringBody ('"' :: acc) rest
  | '\\' :: '\\' :: rest => Json.parseStringBody ('\\' :: acc) rest
  | '\\' :: '/' :: rest => Json.parseStringBody ('/' :: acc) rest
  | '\\' :: 'b' :: rest => Json.parseStringBody ('\x08' :: acc) rest
  | '\\' :: 'f' :: rest => Json.parseStringBody ('\x0c' :: acc) rest
  | '\\' :: 'n' :: rest => Json.parseStringBody ('\n' :: acc) rest
  | '\\' :: 'r' :: rest => Json.parseStringBody ('\x0d' :: acc) rest
  | '\\' :: 't' :: rest => Json.parseStringBody ('\t' :: acc) rest
  | '\\' :: 'u' :: h1 :: h2 :: h3 :: h4 :: rest =>
      match Json.hexVal h1, Json.hexVal h2, Json.hexVal h3, Json.hexVal h4 with
      | some a, some b, some c, some d =>
          Json.parseStringBody (Char.ofNat (((a * 16 + b) * 16 + c) * 16 + d) :: acc) rest
      | _, _, _, _ => none
  | '\\' :: _ => none
  | c :: rest => if c.toNat < 32 then none else Json.parseStringBody (c :: acc) rest

/-- Take the maximal leading run of decimal digits. -/
def Json.takeDigits : List Char → List Char × List Char
  | [] => ([], [])
  | c :: rest =>
      if Json.isDigitCh c then
        let p := Json.takeDigits rest
        (c :: p.1, p.2)
      else ([], c :: rest)

/-- Parse a JSON number literal (grammar: `-? int frac? exp?`, no leading
zeros), returning its text. -/
def Json.parseNumber (s : List Char) : Option (Json × List Char) :=
  let negP : List Char × List Char :=
    match s with
    | '-' :: rest => (['-'], rest)
    | _ => ([], s)
  match negP.2 with
  | [] => none
  | c :: rest =>
      if Json.isDigitCh c then
        let intP : List Char × List Char :=
          if c = '0' then ([c], rest)
          else
            let p := Json.takeDigits rest
            (c :: p.1, p.2)
        let fracP : Option (List Char × List Char) :=
          match intP.2 with
          | '.' :: r1 =>
              match Json.takeDigits r1 with
              | ([], _) => none
              | (ds, r2) => some ('.' :: ds, r2)
          | s2 => some ([], s2)
        match fracP with
        | none => none
        | some (fracDs, s3) =>
            let expP : Option (List Char × List Char) :=
              match s3 with
              | e :: r1 =>
                  if e = 'e' ∨ e = 'E' then
                    let signP : List Char × List Char :=
                      match r1 with
                      | '+' :: r2 => (['+'], r2)
                      | '-' :: r2 => (['-'], r2)
                      | _ => ([], r1)
                    match Json.takeDigits signP.2 with
                    | ([], _) => none
                    | (ds, r3) => some (e :: (signP.1 ++ ds), r3)
                  else some ([], s3)
              | [] => some ([], s3)
            match expP with
            | none => none
            | some (expDs, s4) =>
                some (.num (String.mk (negP.1 ++ intP.1 ++ fracDs ++ expDs)), s4)
      else none

mutual

/-- Parse one JSON value; `fuel` bounds the recursion and is chosen large
enough in `jsonParse` that it never runs out on any input. -/
def Json.parseValue : Nat → List Char → Option (Json × List Char)
  | 0, _ => none
  | fuel + 1, s =>
      match Json.skipWs s with
      | 'n' :: 'u' :: 'l' :: 'l' :: rest => some (.null, rest)
      | 't' :: 'r' :: 'u' :: 'e' :: rest => some (.bool true, rest)
      | 'f' :: 'a' :: 'l' :: 's' :: 'e' :: rest => some (.bool false, rest)
      | '"' :: rest => (Json.parseStringBody [] rest).map (fun p => (.str p.1, p.2))
      | '\x5b' :: rest =>
          (match Json.skipWs rest with
           | '\x5d' :: rest2 => some (.arr [], rest2)
           | s2 => Json.parseArrayItems fuel [] s2)
      | '\x7b' :: rest =>
          (match Json.skipWs rest with
           | '\x7d' :: rest2 => some (.obj [], rest2)
           | s2 => Json.parseObjMembers fuel [] s2)
      | c :: rest =>
          if c = '-' ∨ Json.isDigitCh c then Json.parseNumber (c :: rest) else none
      | [] => none

/-- Parse the remaining comma-separated items of a non-empty JSON array. -/
def Json.parseArrayItems : Nat → List Json → List Char → Option (Json × List Char)
  | 0, _, _ => none
  | fuel + 1, acc, s =>
      match Json.parseValue fuel s with
      | none => none
      | some (v, rest) =>
          match Json.skipWs rest with
          | ',' :: rest2 => Json.parseArrayItems fuel (v :: acc) rest2
          | '\x5d' :: rest2 => some (.arr (v :: acc).reverse, rest2)
          | _ => none

/-- Parse the remaining comma-separated members of a non-empty JSON object. -/
def Json.parseObjMembers : Nat → List (String × Json) → List Char → Option (Json × List Char)
  | 0, _, _ => none
  | fuel + 1, acc, s =>
      match Json.skipWs s with
      | '"' :: rest =>
          (match Json.parseStringBody [] rest with
           | none => none
           | some (key, rest2) =>
               match Json.skipWs rest2 with
               | ':' :: rest3 =>
                   (match Json.parseValue fuel rest3 with
                    | none => none
                    | some (v, rest4) =>
                        match Json.skipWs rest4 with
                        | ',' :: rest5 => Json.parseObjMembers fuel ((key, v) :: acc) rest5
                        | '\x7d' :: rest5 => some (.obj ((key, v) :: acc).reverse, rest5)
                        | _ => none)
               | _ => none)
      | _ => none

end

/-- Model of `JSON.parse`: parse one value, allow trailing whitespace only;
any other input is a `SyntaxError` (`none`). -/
def jsonParse (input : String) : Option Json :=
  let cs := input.data
  match Json.parseValue (2 * cs.length + 4) cs with
  | some (v, rest) => if Json.skipWs rest = [] then some v else none
  | none => none

/-- The value of a named field of a JSON object (`undefined` as `none`); as
with `JSON.parse`, a later duplicate key overwrites an earlier one. -/
def Json.getField : Json → String → Option Json
  | .obj fields, name => fields.foldl (fun acc p => if p.1 = name then some p.2 else acc) none
  | _, _ => none

/-- JS property access `v.f` on a possibly-`undefined` value: accessing a
property of `undefined` or `null` throws a `TypeError` (outer `none`); on a
non-object value it yields `undefined` (`some none`). -/
def jsMember : Option Json → String → Option (Option Json)
  | none, _ => none
  | some .null, _ => none
  | some (.obj fields), name => some ((Json.obj fields).getField name)
  | some _, _ => some none

/-! ## The stream data-event handlers of `Client` -/

/-- The entity a stream handler passes to `emit`: the cached tweet built from
one stream record. -/
structure StreamTweet where
  id : Option Json
  raw : Json

/-- Modelled from the spec: `TweetManager._add` (its source is not under
`src/`; only its stream-handler callers are).  Per the spec, it upserts the
record into the EntityStore and returns the cached entity for the supplied
identifier. -/
def TweetManager.addStream (id : Option Json) (raw : Json) : StreamTweet :=
  { id := id, raw := raw }

/-- Modelled from the spec: the `MatchingRule` structure (source not under
`src/`) wraps one matching rule of a filtered-stream record, resolved to its
descriptive metadata. -/
structure MatchingRule where
  raw : Json

/-- One `FILTERED_TWEET_CREATE` event payload: the tweet plus the collection
of matching rules keyed by rule id. -/
structure FilteredStreamEvent where
  tweet : StreamTweet
  matchingRules : Collection (Option Json) MatchingRule

/-- The `reduce` over `rawData.matching_rules` (`package.json` client source,
lines 318-321): each rule is `set` into a collection under `rule.id`; a
`TypeError` while reading `rule.id` (rule `null`/`undefined`) aborts the
record. -/
def buildMatchingRules : List Json → Collection (Option Json) MatchingRule →
    Option (Collection (Option Json) MatchingRule)
  | [], col => some col
  | rule :: rest, col =>
      match jsMember (some rule) "id" with
      | none => none
      | some idVal => buildMatchingRules rest (col.set idVal { raw := rule })

/-- The data-event handler installed by `Client.#connectToSampledStream`
(lines 343-351): `JSON.parse` the chunk, read `rawTweet.data.id`, add the
tweet, emit `SAMPLED_TWEET_CREATE`; any throw is swallowed by the
`try`/`catch` and the chunk produces no event. -/
def connectToSampledStreamOnData (chunk : String) : Option StreamTweet :=
  match jsonParse chunk with
  | none => none
  | some rawTweet =>
      match jsMember (some rawTweet) "data" with
      | none => none
      | some dataVal =>
          match jsMember dataVal "id" with
          | none => none
          | some idVal => some (TweetManager.addStream idVal rawTweet)

/-- The data-event handler installed by `Client.#connectToFilteredStream`
(lines 314-326): `JSON.parse` the chunk, add the tweet under
`rawData.data.id`, build the matching-rule collection, emit
`FILTERED_TWEET_CREATE`; any throw is swallowed and the chunk produces no
event.  Calling `.reduce` on a non-array `matching_rules` throws. -/
def connectToFilteredStreamOnData (chunk : String) : Option FilteredStreamEvent :=
  match jsonParse chunk with
  | none => none
  | some rawData =>
      match jsMember (some rawData) "data" with
      | none => none
      | some dataVal =>
          match jsMember dataVal "id" with
          | none => none
          | some idVal =>
              let tweet := TweetManager.addStream idVal rawData
              match jsMember (some rawData) "matching_rules" with
              | none => none
              | some mrVal =>
                  match mrVal with
                  | some (.arr rules) =>
                      (match buildMatchingRules rules Collection.empty with
                       | none => none
                       | some col => some { tweet := tweet, matchingRules := col })
                  | _ => none

/-- The two kinds of persistent stream connection. -/
inductive StreamKind where
  | filtered
  | sampled

/-- A stream-connection event as delivered to the client's listeners. -/
inductive StreamEvent where
  | filteredTweetCreate (e : FilteredStreamEvent)
  | sampledTweetCreate (t : StreamTweet)

/-- The per-chunk handler of a stream connection. -/
def streamHandler : StreamKind → String → Option StreamEvent
  | .filtered, chunk => (connectToFilteredStreamOnData chunk).map StreamEvent.filteredTweetCreate
  | .sampled, chunk => (connectToSampledStreamOnData chunk).map StreamEvent.sampledTweetCreate

/-- The consumption loop `readableStream.on(dataEvent, handler)`: the handler runs once per transport
chunk, in arrival order; the connection delivers the events the handler
emits.  A chunk on which the handler's `try` block threw (handler `none`)
terminates neither the connection nor the consumer. -/
def streamOnData {E : Type} (handler : String → Option E) (chunks : List String) : List E :=
  chunks.filterMap handler

/-! ## `Client.loginWithBearerToken` and `Client.createBook` -/

/-- A runtime JavaScript value as an untyped caller can supply it (the cases
relevant to the validation claims). -/
inductive JsVal where
  | str (s : String)
  | num (n : Int)
  | boolv (b : Bool)
  | undef
  | jsnull
  | objv
  deriving DecidableEq, Repr

/-- The errors thrown by the client's public methods:
the CustomTypeError with code INVALID_TYPE (parameter name and expected type) and
`CustomError(code)`. -/
inductive ClientError where
  | invalidType (param expected : String)
  | customError (code : String)
  deriving DecidableEq, Repr

/-- The client state touched by `loginWithBearerToken`. -/
structure ClientState where
  token : Option String := none
  ready : Bool := false
  deriving DecidableEq, Repr

/-- The method `Client.loginWithBearerToken` (client source, lines 228-243): throw
the CustomTypeError with code INVALID_TYPE for parameter token, expected type string, unless
the runtime type of the token is string; otherwise store the token, mark ready and
return it.  The conditional stream connections that follow on success are
modelled separately (`streamOnData`); the error path reaches no transport
call by construction. -/
def Client.loginWithBearerToken (c : ClientState) (token : JsVal) :
    Except ClientError (ClientState × String) :=
  match token with
  | .str s => .ok ({ c with token := some s, ready := true }, s)
  | _ => .error (.invalidType "token" "string")

/-- JS nullish coalescing of an option field with null. -/
def jsNullCoalesce : JsVal → JsVal
  | .undef => .jsnull
  | v => v

/-- A `SearchTweetsBookOptions` object as an untyped caller can pass it at
runtime: any field may be missing (`undef`) or wrongly typed. -/
structure RawSearchTweetsBookOptions where
  query : JsVal := .undef
  afterTweetId : JsVal := .undef
  beforeTweetId : JsVal := .undef
  afterTimestamp : JsVal := .undef
  beforeTimestamp : JsVal := .undef
  maxResultsPerPage : JsVal := .undef
  deriving DecidableEq, Repr

/-- A `SearchTweetsBook` as constructed from untyped runtime options. -/
structure RawSearchTweetsBook where
  hasMore : JsVal
  query : JsVal
  afterTweetId : JsVal
  beforeTweetId : JsVal
  afterTimestamp : JsVal
  beforeTimestamp : JsVal
  maxResultsPerPage : JsVal
  deriving DecidableEq, Repr

/-- The factory `Client.createBook` applied to the SearchTweetsBook variant, at the runtime level
(client source, lines 283-286): `return new Books[bookName](this, options)`
with no runtime validation of the options (TypeScript checks are
compile-time only; the body carries `@ts-expect-error`).  The
`SearchTweetsBook` constructor (`SearchTweetsBook.ts:143-152`) stores
`options.query` as supplied and `?? null`-coalesces the optional fields. -/
def Client.createBookSearchTweets (options : RawSearchTweetsBookOptions) :
    Except ClientError RawSearchTweetsBook :=
  .ok { hasMore := .boolv true
        query := options.query
        afterTweetId := jsNullCoalesce options.afterTweetId
        beforeTweetId := jsNullCoalesce options.beforeTweetId
        afterTimestamp := jsNullCoalesce options.afterTimestamp
        beforeTimestamp := jsNullCoalesce options.beforeTimestamp
        maxResultsPerPage := jsNullCoalesce options.maxResultsPerPage }

/-- A zero-result response carrying no continuation token. -/
def emptyNoTokenResponse : GetTweetSearchResponse :=
  { data := [], meta := { next_token := none, result_count := 0 } }

/-- A one-tweet response carrying the continuation token "tok". -/
def oneTweetTokenResponse : GetTweetSearchResponse :=
  { data := [RawTweet.mk "1"], meta := { next_token := some "tok", result_count := 1 } }

/-- A three-tweet response carrying a continuation token. -/
def threeTweetTokenResponse : GetTweetSearchResponse :=
  { data := [RawTweet.mk "1", RawTweet.mk "2", RawTweet.mk "3"]
    meta := { next_token := some "tok", result_count := 3 } }

/-- A concrete book past its first fetch, holding a continuation token:
input for the C2 witness. -/
def pastFirstFetchBook : SearchTweetsBook :=
  ((SearchTweetsBook.construct none { query := "rust" }).fetchNextPage
    (Except.ok { data := [RawTweet.mk "1"],
                 meta := { next_token := some "tok", result_count := 1 } })).book

/-! ## Lemmas about `Collection` -/

/-- A `set` on an absent key appends the new entry. -/
lemma Collection.set_eq_append {K V : Type} [BEq K] [LawfulBEq K]
    (c : Collection K V) (k : K) (v : V) (h : k ∉ c.keysList) :
    c.set k v = c ++ [(k, v)] := by
  induction c with
  | nil => rfl
  | cons p rest ih =>
      obtain ⟨k', v'⟩ := p
      have hne : k' ≠ k := by
        intro hh
        exact h (by simp [Collection.keysList, hh])
      have hbeq : (k' == k) = false := beq_eq_false_iff_ne.mpr hne
      have hrest : k ∉ Collection.keysList rest := by
        intro hm
        exact h (by simp [Collection.keysList] at hm ⊢; exact Or.inr hm)
      simp [Collection.set, hbeq, ih hrest]

/-- The keys after a `set`: unchanged for a present key, appended for a new
one. -/
lemma Collection.keysList_set {K V : Type} [BEq K] [LawfulBEq K]
    (c : Collection K V) (k : K) (v : V) :
    (c.set k v).keysList = if k ∈ c.keysList then c.keysList else c.keysList ++ [k] := by
  induction c with
  | nil => simp [Collection.set, Collection.keysList]
  | cons p rest ih =>
      obtain ⟨k', v'⟩ := p
      by_cases h : k' = k
      · subst h
        simp [Collection.set, Collection.keysList]
      · have hbeq : (k' == k) = false := beq_eq_false_iff_ne.mpr h
        have hne : k ≠ k' := fun hh => h hh.symm
        simp only [Collection.set, hbeq, Bool.false_eq_true, if_false, Collection.keysList,
          List.map_cons] at ih ⊢
        rw [ih]
        by_cases hm : k ∈ rest.map Prod.fst
        · simp [hm, hne]
        · simp [hm, hne]

/-- Setting a key preserves key distinctness. -/
lemma Collection.keysList_set_nodup {K V : Type} [BEq K] [LawfulBEq K]
    (c : Collection K V) (k : K) (v : V) (h : c.keysList.Nodup) :
    (c.set k v).keysList.Nodup := by
  rw [Collection.keysList_set]
  by_cases hm : k ∈ c.keysList
  · simpa [hm] using h
  · simp [hm, List.nodup_append, h, List.disjoint_singleton]

/-! ## Lemmas about the page-collecting loop -/

/-- The collecting loop, generalized over the starting collection: keys stay
distinct. -/
lemma collectTweets_go_nodup (inc : Option String) :
    ∀ (ts : List RawTweet) (c : Collection String Tweet), c.keysList.Nodup →
      (ts.foldl
        (fun col rawTweet =>
          Collection.set col (TweetManager.add rawTweet.id rawTweet inc).id
            (TweetManager.add rawTweet.id rawTweet inc)) c).keysList.Nodup := by
  intro ts
  induction ts with
  | nil => intro c h; simpa using h
  | cons t rest ih =>
      intro c h
      simpa using ih _ (Collection.keysList_set_nodup _ _ _ h)

/-- The collecting loop over raw tweets with pairwise distinct ids, starting
from a collection none of those ids is in: each tweet appends one entry, in
response order. -/
lemma collectTweets_go_eq (inc : Option String) :
    ∀ (ts : List RawTweet) (c : Collection String Tweet),
      (∀ t ∈ ts, t.id ∉ c.keysList) → (ts.map RawTweet.id).Nodup →
      ts.foldl
        (fun col rawTweet =>
          Collection.set col (TweetManager.add rawTweet.id rawTweet inc).id
            (TweetManager.add rawTweet.id rawTweet inc)) c
        = c ++ ts.map (fun rt => (rt.id, TweetManager.add rt.id rt inc)) := by
  intro ts
  induction ts with
  | nil => intro c _ _; simp
  | cons t rest ih =>
      intro c hfresh hnd
      have hset : Collection.set c (TweetManager.add t.id t inc).id
          (TweetManager.add t.id t inc) = c ++ [(t.id, TweetManager.add t.id t inc)] :=
        Collection.set_eq_append _ _ _ (hfresh t (List.mem_cons_self t rest))
      have hnd' : (rest.map RawTweet.id).Nodup := (List.nodup_cons.mp (by simpa using hnd)).2
      have hid : t.id ∉ rest.map RawTweet.id := (List.nodup_cons.mp (by simpa using hnd)).1
      have hfresh' : ∀ u ∈ rest, u.id ∉ (c ++ [(t.id, TweetManager.add t.id t inc)]).keysList := by
        intro u hu
        have h1 : u.id ∉ c.keysList := hfresh u (List.mem_cons_of_mem _ hu)
        have h2 : u.id ≠ t.id := by
          intro hh
          exact hid (hh ▸ List.mem_map_of_mem RawTweet.id hu)
        simp [Collection.keysList, List.map_append] at h1 ⊢
        exact ⟨h1, h2⟩
      simp only [List.foldl_cons, hset]
      rw [ih _ hfresh' hnd']
      simp

/-- The collection built by `#fetchPages` from the `data` array, stated via
the generalized loop. -/
lemma collectTweets_eq_foldl (ts : List RawTweet) (inc : Option String) :
    SearchTweetsBook.collectTweets ts inc =
      ts.foldl
        (fun col rawTweet =>
          Collection.set col (TweetManager.add rawTweet.id rawTweet inc).id
            (TweetManager.add rawTweet.id rawTweet inc)) Collection.empty := rfl

/-- Reduction of a `fetchNextPage` call that reaches the transport (either
it is the first call, or a truthy token is stored) and receives a successful
response. -/
lemma fetchNextPage_ok (b : SearchTweetsBook) (data : GetTweetSearchResponse)
    (hreach : b.hasMadeInitialRequest = false ∨ jsTruthyOptStr b.nextToken = true) :
    b.fetchNextPage (.ok data) =
      { book := { b with
                    hasMadeInitialRequest := true
                    nextToken := data.meta.next_token
                    hasMore := jsTruthyOptStr data.meta.next_token }
        outcome := if data.meta.result_count = 0 then .ok Collection.empty
                   else .ok (SearchTweetsBook.collectTweets data.data data.includes)
        issuedQuery := some (SearchTweetsBook.buildQuery
          { b with hasMadeInitialRequest := true }
          (if b.hasMadeInitialRequest then b.nextToken else none)) } := by
  by_cases hm : b.hasMadeInitialRequest
  · have ht : jsTruthyOptStr b.nextToken = true := by
      rcases hreach with h | h
      · rw [hm] at h; cases h
      · exact h
    have hb : ({ b with hasMadeInitialRequest := true } : SearchTweetsBook) = b := by
      cases b
      simp_all
    by_cases hz : data.meta.result_count = 0 <;>
      simp [SearchTweetsBook.fetchNextPage, hm, ht, SearchTweetsBook.fetchPages, hb, hz]
  · simp only [Bool.not_eq_true] at hm
    by_cases hz : data.meta.result_count = 0 <;>
      simp [SearchTweetsBook.fetchNextPage, hm, SearchTweetsBook.fetchPages, hz]

/-- The range-bound fields of every query built by `#fetchPages`: each bound
is present exactly when its stored value is JS-truthy, and then carries that
value. -/
lemma buildQuery_range_fields (b : SearchTweetsBook) (token : Option String) :
    (b.buildQuery token).since_id =
      (if jsTruthyOptStr b.afterTweetId then b.afterTweetId else none) ∧
    (b.buildQuery token).until_id =
      (if jsTruthyOptStr b.beforeTweetId then b.beforeTweetId else none) ∧
    (b.buildQuery token).max_results =
      (if jsTruthyOptInt b.maxResultsPerPage then b.maxResultsPerPage else none) ∧
    (b.buildQuery token).start_time =
      (if jsTruthyOptInt b.afterTimestamp then b.afterTimestamp.map dateToISOString else none) ∧
    (b.buildQuery token).end_time =
      (if jsTruthyOptInt b.beforeTimestamp then b.beforeTimestamp.map dateToISOString else none) := by
  simp only [SearchTweetsBook.buildQuery]
  split_ifs <;> simp_all

/-! ## The claims -/

/-- C1 (confirmed): a Book whose cursor is exhausted — at least one fetch
already made (`hasMadeInitialRequest`) and no continuation token stored —
fails every subsequent `fetchNextPage` call, however long the sequence of
calls, with the `PAGINATED_RESPONSE_TAIL_REACHED` condition (the spec's
`PaginationExhausted`), issues no transport call (`issuedQuery = none`), and
leaves the book state unchanged, so it never silently succeeds with an empty
page. -/
theorem claim1_exhausted_guard (b : SearchTweetsBook)
    (h1 : b.hasMadeInitialRequest = true) (h2 : b.nextToken = none) :
    ∀ (resps : List (Except String GetTweetSearchResponse)), ∀ c ∈ b.runFetches resps,
      c.outcome = .error (.customError "PAGINATED_RESPONSE_TAIL_REACHED") ∧
      c.issuedQuery = none ∧ c.book = b := by
  have hcall : ∀ resp, b.fetchNextPage resp =
      ({ book := b, outcome := .error (.customError "PAGINATED_RESPONSE_TAIL_REACHED"),
         issuedQuery := none } : FetchCall) := by
    intro resp
    simp [SearchTweetsBook.fetchNextPage, h1, h2, jsTruthyOptStr]
  intro resps
  induction resps with
  | nil => intro c hc; simp [SearchTweetsBook.runFetches] at hc
  | cons r rest ih =>
      intro c hc
      simp only [SearchTweetsBook.runFetches, hcall] at hc
      rcases List.mem_cons.mp hc with hc1 | hc2
      · subst hc1; exact ⟨rfl, rfl, rfl⟩
      · exact ih c hc2

/-- C1 witness: a concrete book exhausted by a first page with no token
fails a further call with the exhaustion condition, without touching the
transport and without changing state. -/
theorem claim1_exhausted_guard_witness :
    (((SearchTweetsBook.construct none { query := "rust" }).fetchNextPage
        (.ok emptyNoTokenResponse)).book.hasMadeInitialRequest = true) ∧
    (((SearchTweetsBook.construct none { query := "rust" }).fetchNextPage
        (.ok emptyNoTokenResponse)).book.nextToken = none) ∧
    ((((SearchTweetsBook.construct none { query := "rust" }).fetchNextPage
        (.ok emptyNoTokenResponse)).book.fetchNextPage (Except.error "boom")).outcome =
      .error (.customError "PAGINATED_RESPONSE_TAIL_REACHED")) ∧
    ((((SearchTweetsBook.construct none { query := "rust" }).fetchNextPage
        (.ok emptyNoTokenResponse)).book.fetchNextPage (Except.error "boom")).issuedQuery =
      none) ∧
    ((((SearchTweetsBook.construct none { query := "rust" }).fetchNextPage
        (.ok emptyNoTokenResponse)).book.fetchNextPage (Except.error "boom")).book =
      ((SearchTweetsBook.construct none { query := "rust" }).fetchNextPage
        (.ok emptyNoTokenResponse)).book) := by
  have h := claim1_exhausted_guard
    ((SearchTweetsBook.construct none { query := "rust" }).fetchNextPage
      (.ok emptyNoTokenResponse)).book rfl rfl [Except.error "boom"]
    (((SearchTweetsBook.construct none { query := "rust" }).fetchNextPage
      (.ok emptyNoTokenResponse)).book.fetchNextPage (Except.error "boom"))
    (by simp [SearchTweetsBook.runFetches])
  exact ⟨rfl, rfl, h.1, h.2.1, h.2.2⟩

/-- C2 (counterexample): on the very first `fetchNextPage` call on a fresh
book, a transport failure leaves `hasMadeInitialRequest = true` although it
was `false` before the call, so pagination cursor state is advanced by the
failed call, contrary to the claim. -/
theorem claim2_counterexample :
    ((SearchTweetsBook.construct none { query := "rust" }).fetchNextPage
        (Except.error "ECONNRESET")).outcome = .error (.transport "ECONNRESET") ∧
    (SearchTweetsBook.construct none { query := "rust" }).hasMadeInitialRequest = false ∧
    ((SearchTweetsBook.construct none { query := "rust" }).fetchNextPage
        (Except.error "ECONNRESET")).book.hasMadeInitialRequest = true :=
  ⟨rfl, rfl, rfl⟩

/-- C2 (amended, proved): a transport-failed page fetch leaves the stored
token and `hasMore` unchanged and surfaces the failure; `hasMadeInitialRequest`
is unchanged for every call after the first, but the failed first call still
sets it to `true` (it is assigned before the transport call), so a later
`fetchNextPage` on a book whose only fetch failed reports exhaustion instead
of retrying the first page. -/
theorem claim2_failed_fetch_state (b : SearchTweetsBook) (e : String)
    (hreach : b.hasMadeInitialRequest = false ∨ jsTruthyOptStr b.nextToken = true) :
    (b.fetchNextPage (.error e)).outcome = .error (.transport e) ∧
    (b.fetchNextPage (.error e)).book.nextToken = b.nextToken ∧
    (b.fetchNextPage (.error e)).book.hasMore = b.hasMore ∧
    (b.fetchNextPage (.error e)).book.hasMadeInitialRequest = true ∧
    (b.hasMadeInitialRequest = true → (b.fetchNextPage (.error e)).book = b) := by
  by_cases hm : b.hasMadeInitialRequest
  · have ht : jsTruthyOptStr b.nextToken = true := by
      rcases hreach with h | h
      · rw [hm] at h; cases h
      · exact h
    simp [SearchTweetsBook.fetchNextPage, hm, ht, SearchTweetsBook.fetchPages]
  · simp only [Bool.not_eq_true] at hm
    simp [SearchTweetsBook.fetchNextPage, hm, SearchTweetsBook.fetchPages]

/-- C2 witness: the amended statement at a concrete book past its first
fetch, where a failed call changes nothing at all. -/
theorem claim2_failed_fetch_state_witness :
    (pastFirstFetchBook.hasMadeInitialRequest = false ∨
      jsTruthyOptStr pastFirstFetchBook.nextToken = true) ∧
    ((pastFirstFetchBook.fetchNextPage (.error "ECONNRESET")).outcome =
        .error (.transport "ECONNRESET") ∧
      (pastFirstFetchBook.fetchNextPage (.error "ECONNRESET")).book.nextToken =
        pastFirstFetchBook.nextToken ∧
      (pastFirstFetchBook.fetchNextPage (.error "ECONNRESET")).book.hasMore =
        pastFirstFetchBook.hasMore ∧
      (pastFirstFetchBook.fetchNextPage (.error "ECONNRESET")).book.hasMadeInitialRequest =
        true ∧
      (pastFirstFetchBook.fetchNextPage (.error "ECONNRESET")).book = pastFirstFetchBook) := by
  have h := claim2_failed_fetch_state pastFirstFetchBook "ECONNRESET" (Or.inr rfl)
  exact ⟨Or.inr rfl, h.1, h.2.1, h.2.2.1, h.2.2.2.1, h.2.2.2.2 rfl⟩

/-- C10 (confirmed): a freshly constructed `SearchTweetsBook` reports
`hasMore = true` before any fetch has been made (`hasMadeInitialRequest`
still false, no token stored); only after the first successful fetch does
`hasMore` reflect the response's continuation token (its JS truthiness). -/
theorem claim10_fresh_book_hasMore (qp : Option QueryParameters)
    (opts : SearchTweetsBookOptions) :
    (SearchTweetsBook.construct qp opts).hasMore = true ∧
    (SearchTweetsBook.construct qp opts).hasMadeInitialRequest = false ∧
    (SearchTweetsBook.construct qp opts).nextToken = none ∧
    ∀ data : GetTweetSearchResponse,
      ((SearchTweetsBook.construct qp opts).fetchNextPage (.ok data)).book.hasMore =
        jsTruthyOptStr data.meta.next_token := by
  refine ⟨rfl, rfl, rfl, ?_⟩
  intro data
  by_cases hz : data.meta.result_count = 0 <;>
    simp [SearchTweetsBook.construct, SearchTweetsBook.fetchNextPage,
      SearchTweetsBook.fetchPages, hz]

/-- C4 (confirmed): a page fetch whose response reports `result_count = 0`
still updates the cursor from the response metadata (the token is stored and
`hasMore` recomputed from it) and returns an empty collection; when the
response also carries no continuation token, the cursor is exhausted within
that same call — the book ends the call with the initial request made and no
token, and any next call fails with `PAGINATED_RESPONSE_TAIL_REACHED` (the
spec's `PaginationExhausted`) without a transport call. -/
theorem claim4_zero_result_page (b : SearchTweetsBook) (data : GetTweetSearchResponse)
    (hreach : b.hasMadeInitialRequest = false ∨ jsTruthyOptStr b.nextToken = true)
    (hcount : data.meta.result_count = 0) :
    (b.fetchNextPage (.ok data)).outcome = .ok Collection.empty ∧
    (b.fetchNextPage (.ok data)).book.nextToken = data.meta.next_token ∧
    (b.fetchNextPage (.ok data)).book.hasMore = jsTruthyOptStr data.meta.next_token ∧
    (b.fetchNextPage (.ok data)).book.hasMadeInitialRequest = true ∧
    (data.meta.next_token = none →
      ∀ resp2 : Except String GetTweetSearchResponse,
        ((b.fetchNextPage (.ok data)).book.fetchNextPage resp2).outcome =
          .error (.customError "PAGINATED_RESPONSE_TAIL_REACHED") ∧
        ((b.fetchNextPage (.ok data)).book.fetchNextPage resp2).issuedQuery = none) := by
  rw [fetchNextPage_ok b data hreach]
  refine ⟨by simp [hcount], rfl, rfl, rfl, ?_⟩
  intro hnt resp2
  constructor <;> simp [SearchTweetsBook.fetchNextPage, hnt, jsTruthyOptStr]

/-- C4 witness: a concrete first fetch answered by a zero-result, token-free
response returns an empty collection and leaves an exhausted book whose next
call fails eagerly. -/
theorem claim4_zero_result_page_witness :
    ((SearchTweetsBook.construct none { query := "rust" }).hasMadeInitialRequest = false ∨
      jsTruthyOptStr (SearchTweetsBook.construct none { query := "rust" }).nextToken = true) ∧
    emptyNoTokenResponse.meta.result_count = 0 ∧
    ((SearchTweetsBook.construct none { query := "rust" }).fetchNextPage
        (.ok emptyNoTokenResponse)).outcome = .ok Collection.empty ∧
    ((SearchTweetsBook.construct none { query := "rust" }).fetchNextPage
        (.ok emptyNoTokenResponse)).book.nextToken = emptyNoTokenResponse.meta.next_token ∧
    ((SearchTweetsBook.construct none { query := "rust" }).fetchNextPage
        (.ok emptyNoTokenResponse)).book.hasMore =
      jsTruthyOptStr emptyNoTokenResponse.meta.next_token ∧
    ((SearchTweetsBook.construct none { query := "rust" }).fetchNextPage
        (.ok emptyNoTokenResponse)).book.hasMadeInitialRequest = true ∧
    (((SearchTweetsBook.construct none { query := "rust" }).fetchNextPage
        (.ok emptyNoTokenResponse)).book.fetchNextPage (Except.error "later")).outcome =
      .error (.customError "PAGINATED_RESPONSE_TAIL_REACHED") ∧
    (((SearchTweetsBook.construct none { query := "rust" }).fetchNextPage
        (.ok emptyNoTokenResponse)).book.fetchNextPage (Except.error "later")).issuedQuery =
      none := by
  have h := claim4_zero_result_page (SearchTweetsBook.construct none { query := "rust" })
    emptyNoTokenResponse (Or.inl rfl) rfl
  exact ⟨Or.inl rfl, rfl, h.1, h.2.1, h.2.2.1, h.2.2.2.1,
    (h.2.2.2.2 rfl (Except.error "later")).1, (h.2.2.2.2 rfl (Except.error "later")).2⟩

/-- C5 (counterexample): a successful fetch whose response carries the empty
string as its continuation token stores that non-null token yet sets
`hasMore = false` (JS truthiness), so `hasMore` does not equal
`token != null` as claimed. -/
theorem claim5_counterexample :
    ((SearchTweetsBook.construct none { query := "rust" }).fetchNextPage
        (.ok { data := [], meta := { next_token := some "", result_count := 0 } })).book.nextToken =
      some "" ∧
    ((SearchTweetsBook.construct none { query := "rust" }).fetchNextPage
        (.ok { data := [], meta := { next_token := some "", result_count := 0 } })).book.nextToken ≠
      none ∧
    ((SearchTweetsBook.construct none { query := "rust" }).fetchNextPage
        (.ok { data := [], meta := { next_token := some "", result_count := 0 } })).book.hasMore =
      false :=
  ⟨rfl, by decide, rfl⟩

/-- C5 (amended, proved): on every successful page fetch,
`hasMadeInitialRequest` ends `true`, the stored token becomes exactly the
response's continuation token (or `none` when absent), and `hasMore` equals
the JS truthiness of that token — non-null and non-empty — rather than
`token != null`; whenever the new token is not truthy the cursor is
exhausted: every next call fails with `PAGINATED_RESPONSE_TAIL_REACHED`. -/
theorem claim5_cursor_transition (b : SearchTweetsBook) (data : GetTweetSearchResponse)
    (hreach : b.hasMadeInitialRequest = false ∨ jsTruthyOptStr b.nextToken = true) :
    (b.fetchNextPage (.ok data)).book.hasMadeInitialRequest = true ∧
    (b.fetchNextPage (.ok data)).book.nextToken = data.meta.next_token ∧
    (b.fetchNextPage (.ok data)).book.hasMore = jsTruthyOptStr data.meta.next_token ∧
    (jsTruthyOptStr data.meta.next_token = false →
      ∀ resp2 : Except String GetTweetSearchResponse,
        ((b.fetchNextPage (.ok data)).book.fetchNextPage resp2).outcome =
          .error (.customError "PAGINATED_RESPONSE_TAIL_REACHED")) := by
  rw [fetchNextPage_ok b data hreach]
  refine ⟨rfl, rfl, rfl, ?_⟩
  intro hf resp2
  simp [SearchTweetsBook.fetchNextPage, hf]

/-- C5 witness: the amended transition rule at a concrete first fetch whose
response carries no token, so the exhaustion consequence is also exercised. -/
theorem claim5_cursor_transition_witness :
    ((SearchTweetsBook.construct none { query := "rust" }).hasMadeInitialRequest = false ∨
      jsTruthyOptStr (SearchTweetsBook.construct none { query := "rust" }).nextToken = true) ∧
    ((SearchTweetsBook.construct none { query := "rust" }).fetchNextPage
        (.ok emptyNoTokenResponse)).book.hasMadeInitialRequest = true ∧
    ((SearchTweetsBook.construct none { query := "rust" }).fetchNextPage
        (.ok emptyNoTokenResponse)).book.nextToken = emptyNoTokenResponse.meta.next_token ∧
    ((SearchTweetsBook.construct none { query := "rust" }).fetchNextPage
        (.ok emptyNoTokenResponse)).book.hasMore =
      jsTruthyOptStr emptyNoTokenResponse.meta.next_token ∧
    (((SearchTweetsBook.construct none { query := "rust" }).fetchNextPage
        (.ok emptyNoTokenResponse)).book.fetchNextPage
          (.ok oneTweetTokenResponse)).outcome =
      .error (.customError "PAGINATED_RESPONSE_TAIL_REACHED") := by
  have h := claim5_cursor_transition (SearchTweetsBook.construct none { query := "rust" })
    emptyNoTokenResponse (Or.inl rfl)
  exact ⟨Or.inl rfl, h.1, h.2.1, h.2.2.1, h.2.2.2 rfl (.ok oneTweetTokenResponse)⟩

/-- C6 (counterexample): a book constructed with the non-null page-size cap
`maxResultsPerPage = 0` issues its first page request without the
result-count-limit parameter (`max_results` absent), because the code guards
each bound with JS truthiness and `0` is falsy; so not every non-null bound
is included in every request. -/
theorem claim6_counterexample :
    (SearchTweetsBook.construct none
        { query := "rust", maxResultsPerPage := some 0 }).maxResultsPerPage = some 0 ∧
    (((SearchTweetsBook.construct none
        { query := "rust", maxResultsPerPage := some 0 }).fetchNextPage
          (.ok emptyNoTokenResponse)).issuedQuery.map GetTweetSearchQuery.max_results) =
      some none :=
  ⟨rfl, rfl⟩

/-- C6 (amended, proved): every page request issued over a Book's lifetime
includes each range bound that is non-null and JS-truthy (a non-empty
identifier string, a nonzero timestamp or page-size cap), mapped to its
query parameter (`since_id`/`until_id`, ISO-8601 `start_time`/`end_time`,
`max_results`), and a fetch never mutates the bound fields, so the bounds
are unchanged across pages; bounds that are non-null but falsy (empty
string, zero) are omitted. -/
theorem claim6_range_bounds (b : SearchTweetsBook) :
    (∀ (resp : Except String GetTweetSearchResponse) (q : GetTweetSearchQuery),
      (b.fetchNextPage resp).issuedQuery = some q →
        q.since_id = (if jsTruthyOptStr b.afterTweetId then b.afterTweetId else none) ∧
        q.until_id = (if jsTruthyOptStr b.beforeTweetId then b.beforeTweetId else none) ∧
        q.max_results = (if jsTruthyOptInt b.maxResultsPerPage then b.maxResultsPerPage else none) ∧
        q.start_time =
          (if jsTruthyOptInt b.afterTimestamp then b.afterTimestamp.map dateToISOString else none) ∧
        q.end_time =
          (if jsTruthyOptInt b.beforeTimestamp then b.beforeTimestamp.map dateToISOString else none)) ∧
    (∀ resp : Except String GetTweetSearchResponse,
      (b.fetchNextPage resp).book.afterTweetId = b.afterTweetId ∧
      (b.fetchNextPage resp).book.beforeTweetId = b.beforeTweetId ∧
      (b.fetchNextPage resp).book.afterTimestamp = b.afterTimestamp ∧
      (b.fetchNextPage resp).book.beforeTimestamp = b.beforeTimestamp ∧
      (b.fetchNextPage resp).book.maxResultsPerPage = b.maxResultsPerPage ∧
      (b.fetchNextPage resp).book.query = b.query ∧
      (b.fetchNextPage resp).book.clientQueryParameters = b.clientQueryParameters) := by
  have hq : ∀ (b2 : SearchTweetsBook) (token : Option String),
      b2.afterTweetId = b.afterTweetId → b2.beforeTweetId = b.beforeTweetId →
      b2.maxResultsPerPage = b.maxResultsPerPage → b2.afterTimestamp = b.afterTimestamp →
      b2.beforeTimestamp = b.beforeTimestamp →
      (b2.buildQuery token).since_id =
        (if jsTruthyOptStr b.afterTweetId then b.afterTweetId else none) ∧
      (b2.buildQuery token).until_id =
        (if jsTruthyOptStr b.beforeTweetId then b.beforeTweetId else none) ∧
      (b2.buildQuery token).max_results =
        (if jsTruthyOptInt b.maxResultsPerPage then b.maxResultsPerPage else none) ∧
      (b2.buildQuery token).start_time =
        (if jsTruthyOptInt b.afterTimestamp then b.afterTimestamp.map dateToISOString else none) ∧
      (b2.buildQuery token).end_time =
        (if jsTruthyOptInt b.beforeTimestamp then b.beforeTimestamp.map dateToISOString else none) := by
    intro b2 token h1 h2 h3 h4 h5
    have := buildQuery_range_fields b2 token
    rw [h1, h2, h3, h4, h5] at this
    exact this
  constructor
  · intro resp q hqq
    by_cases hm : b.hasMadeInitialRequest
    · by_cases ht : jsTruthyOptStr b.nextToken
      · have hred : (b.fetchNextPage resp).issuedQuery = some (b.buildQuery b.nextToken) := by
          cases resp with
          | error e => simp [SearchTweetsBook.fetchNextPage, SearchTweetsBook.fetchPages, hm, ht]
          | ok data =>
              by_cases hz : data.meta.result_count = 0 <;>
                simp [SearchTweetsBook.fetchNextPage, SearchTweetsBook.fetchPages, hm, ht, hz]
        rw [hred] at hqq
        cases hqq
        exact hq b b.nextToken rfl rfl rfl rfl rfl
      · simp only [Bool.not_eq_true] at ht
        simp [SearchTweetsBook.fetchNextPage, hm, ht] at hqq
    · simp only [Bool.not_eq_true] at hm
      have hred : (b.fetchNextPage resp).issuedQuery =
          some (SearchTweetsBook.buildQuery { b with hasMadeInitialRequest := true } none) := by
        cases resp with
        | error e => simp [SearchTweetsBook.fetchNextPage, SearchTweetsBook.fetchPages, hm]
        | ok data =>
            by_cases hz : data.meta.result_count = 0 <;>
              simp [SearchTweetsBook.fetchNextPage, SearchTweetsBook.fetchPages, hm, hz]
      rw [hred] at hqq
      cases hqq
      exact hq _ none rfl rfl rfl rfl rfl
  · intro resp
    match resp with
    | .error e =>
        by_cases hm : b.hasMadeInitialRequest
        · by_cases ht : jsTruthyOptStr b.nextToken
          · simp [SearchTweetsBook.fetchNextPage, SearchTweetsBook.fetchPages, hm, ht]
          · simp only [Bool.not_eq_true] at ht
            simp [SearchTweetsBook.fetchNextPage, hm, ht]
        · simp only [Bool.not_eq_true] at hm
          simp [SearchTweetsBook.fetchNextPage, SearchTweetsBook.fetchPages, hm]
    | .ok data =>
        by_cases hm : b.hasMadeInitialRequest
        · by_cases ht : jsTruthyOptStr b.nextToken
          · by_cases hz : data.meta.result_count = 0 <;>
              simp [SearchTweetsBook.fetchNextPage, SearchTweetsBook.fetchPages, hm, ht, hz]
          · simp only [Bool.not_eq_true] at ht
            simp [SearchTweetsBook.fetchNextPage, hm, ht]
        · simp only [Bool.not_eq_true] at hm
          by_cases hz : data.meta.result_count = 0 <;>
            simp [SearchTweetsBook.fetchNextPage, SearchTweetsBook.fetchPages, hm, hz]

/-- C6 witness: a book with identifier bounds "100" and "200" issues its
first request with both bounds present in the query. -/
theorem claim6_range_bounds_witness :
    ((SearchTweetsBook.construct none
        { query := "rust", afterTweetId := some "100", beforeTweetId := some "200" }).fetchNextPage
          (.ok oneTweetTokenResponse)).issuedQuery =
      some (SearchTweetsBook.buildQuery
        { SearchTweetsBook.construct none
            { query := "rust", afterTweetId := some "100", beforeTweetId := some "200" } with
            hasMadeInitialRequest := true } none) ∧
    ((SearchTweetsBook.buildQuery
        { SearchTweetsBook.construct none
            { query := "rust", afterTweetId := some "100", beforeTweetId := some "200" } with
            hasMadeInitialRequest := true } none).since_id =
      (if jsTruthyOptStr (SearchTweetsBook.construct none
          { query := "rust", afterTweetId := some "100", beforeTweetId := some "200" }).afterTweetId
       then (SearchTweetsBook.construct none
          { query := "rust", afterTweetId := some "100", beforeTweetId := some "200" }).afterTweetId
       else none) ∧
     (SearchTweetsBook.buildQuery
        { SearchTweetsBook.construct none
            { query := "rust", afterTweetId := some "100", beforeTweetId := some "200" } with
            hasMadeInitialRequest := true } none).until_id =
      (if jsTruthyOptStr (SearchTweetsBook.construct none
          { query := "rust", afterTweetId := some "100", beforeTweetId := some "200" }).beforeTweetId
       then (SearchTweetsBook.construct none
          { query := "rust", afterTweetId := some "100", beforeTweetId := some "200" }).beforeTweetId
       else none) ∧
     (SearchTweetsBook.buildQuery
        { SearchTweetsBook.construct none
            { query := "rust", afterTweetId := some "100", beforeTweetId := some "200" } with
            hasMadeInitialRequest := true } none).max_results =
      (if jsTruthyOptInt (SearchTweetsBook.construct none
          { query := "rust", afterTweetId := some "100", beforeTweetId := some "200" }).maxResultsPerPage
       then (SearchTweetsBook.construct none
          { query := "rust", afterTweetId := some "100", beforeTweetId := some "200" }).maxResultsPerPage
       else none) ∧
     (SearchTweetsBook.buildQuery
        { SearchTweetsBook.construct none
            { query := "rust", afterTweetId := some "100", beforeTweetId := some "200" } with
            hasMadeInitialRequest := true } none).start_time =
      (if jsTruthyOptInt (SearchTweetsBook.construct none
          { query := "rust", afterTweetId := some "100", beforeTweetId := some "200" }).afterTimestamp
       then Option.map dateToISOString (SearchTweetsBook.construct none
          { query := "rust", afterTweetId := some "100", beforeTweetId := some "200" }).afterTimestamp
       else none) ∧
     (SearchTweetsBook.buildQuery
        { SearchTweetsBook.construct none
            { query := "rust", afterTweetId := some "100", beforeTweetId := some "200" } with
            hasMadeInitialRequest := true } none).end_time =
      (if jsTruthyOptInt (SearchTweetsBook.construct none
          { query := "rust", afterTweetId := some "100", beforeTweetId := some "200" }).beforeTimestamp
       then Option.map dateToISOString (SearchTweetsBook.construct none
          { query := "rust", afterTweetId := some "100", beforeTweetId := some "200" }).beforeTimestamp
       else none)) ∧
    (SearchTweetsBook.buildQuery
        { SearchTweetsBook.construct none
            { query := "rust", afterTweetId := some "100", beforeTweetId := some "200" } with
            hasMadeInitialRequest := true } none).since_id = some "100" ∧
    (SearchTweetsBook.buildQuery
        { SearchTweetsBook.construct none
            { query := "rust", afterTweetId := some "100", beforeTweetId := some "200" } with
            hasMadeInitialRequest := true } none).until_id = some "200" :=
  ⟨rfl, (claim6_range_bounds _).1 (.ok oneTweetTokenResponse) _ rfl, rfl, rfl⟩

/-- C7 (confirmed): a non-empty page returns the collection built by the
collecting loop: an identifier-keyed mapping whose keys are always pairwise
distinct, and — whenever the response's ids are pairwise distinct — whose
entries are exactly the cached tweets keyed by their ids in API response
order; with a continuation token present, `hasMore` stays true. -/
theorem claim7_page_mapping (b : SearchTweetsBook) (data : GetTweetSearchResponse)
    (hreach : b.hasMadeInitialRequest = false ∨ jsTruthyOptStr b.nextToken = true)
    (hcount : data.meta.result_count ≠ 0) :
    (b.fetchNextPage (.ok data)).outcome =
      .ok (SearchTweetsBook.collectTweets data.data data.includes) ∧
    (SearchTweetsBook.collectTweets data.data data.includes).keysList.Nodup ∧
    ((data.data.map RawTweet.id).Nodup →
      SearchTweetsBook.collectTweets data.data data.includes =
        data.data.map (fun rt => (rt.id, TweetManager.add rt.id rt data.includes))) ∧
    ((data.data.map RawTweet.id).Nodup →
      (SearchTweetsBook.collectTweets data.data data.includes).keysList =
        data.data.map RawTweet.id) ∧
    (b.fetchNextPage (.ok data)).book.hasMore = jsTruthyOptStr data.meta.next_token := by
  have heq : ∀ hnd : (data.data.map RawTweet.id).Nodup,
      SearchTweetsBook.collectTweets data.data data.includes =
        data.data.map (fun rt => (rt.id, TweetManager.add rt.id rt data.includes)) := by
    intro hnd
    rw [collectTweets_eq_foldl]
    have h := collectTweets_go_eq data.includes data.data Collection.empty
      (by intro t ht; simp [Collection.empty, Collection.keysList]) hnd
    simpa [Collection.empty] using h
  refine ⟨?_, ?_, heq, ?_, ?_⟩
  · rw [fetchNextPage_ok b data hreach]
    simp [hcount]
  · rw [collectTweets_eq_foldl]
    exact collectTweets_go_nodup data.includes data.data Collection.empty
      (by simp [Collection.empty, Collection.keysList])
  · intro hnd
    rw [heq hnd]
    simp [Collection.keysList]
  · rw [fetchNextPage_ok b data hreach]

/-- C7 witness: one `fetchNextPage` on a fresh book against a stub response
of three tweets and a `next_token` yields exactly that three-entry ordered
mapping, keyed in response order, and leaves `hasMore = true`. -/
theorem claim7_page_mapping_witness :
    ((SearchTweetsBook.construct none
        { query := "rust", maxResultsPerPage := some 10 }).hasMadeInitialRequest = false ∨
      jsTruthyOptStr (SearchTweetsBook.construct none
        { query := "rust", maxResultsPerPage := some 10 }).nextToken = true) ∧
    threeTweetTokenResponse.meta.result_count ≠ 0 ∧
    ((SearchTweetsBook.construct none
        { query := "rust", maxResultsPerPage := some 10 }).fetchNextPage
          (.ok threeTweetTokenResponse)).outcome =
      .ok (SearchTweetsBook.collectTweets threeTweetTokenResponse.data
        threeTweetTokenResponse.includes) ∧
    (SearchTweetsBook.collectTweets threeTweetTokenResponse.data
      threeTweetTokenResponse.includes).keysList.Nodup ∧
    SearchTweetsBook.collectTweets threeTweetTokenResponse.data
        threeTweetTokenResponse.includes =
      threeTweetTokenResponse.data.map
        (fun rt => (rt.id, TweetManager.add rt.id rt threeTweetTokenResponse.includes)) ∧
    (SearchTweetsBook.collectTweets threeTweetTokenResponse.data
        threeTweetTokenResponse.includes).keysList =
      threeTweetTokenResponse.data.map RawTweet.id ∧
    ((SearchTweetsBook.construct none
        { query := "rust", maxResultsPerPage := some 10 }).fetchNextPage
          (.ok threeTweetTokenResponse)).book.hasMore =
      jsTruthyOptStr threeTweetTokenResponse.meta.next_token ∧
    (SearchTweetsBook.collectTweets threeTweetTokenResponse.data
      threeTweetTokenResponse.includes).size = 3 ∧
    ((SearchTweetsBook.construct none
        { query := "rust", maxResultsPerPage := some 10 }).fetchNextPage
          (.ok threeTweetTokenResponse)).book.hasMore = true := by
  have h := claim7_page_mapping (SearchTweetsBook.construct none
    { query := "rust", maxResultsPerPage := some 10 }) threeTweetTokenResponse
    (Or.inl rfl) (by decide)
  exact ⟨Or.inl rfl, by decide, h.1, h.2.1, h.2.2.1 (by decide), h.2.2.2.1 (by decide),
    h.2.2.2.2, rfl, rfl⟩

/-- C3 (counterexample): the record split across the two transport chunks of
the claim produces no event at all — not one — on either stream connection:
the consumer does no line buffering, so each fragment fails JSON decoding and
is dropped. -/
theorem claim3_counterexample :
    streamOnData connectToSampledStreamOnData
      ["\x7b\"data\":\x7b\"id\":\"1", "\"\x7d\x7d\n"] = [] ∧
    streamOnData connectToFilteredStreamOnData
      ["\x7b\"data\":\x7b\"id\":\"1", "\"\x7d\x7d\n"] = [] ∧
    (streamOnData connectToSampledStreamOnData
      ["\x7b\"data\":\x7b\"id\":\"1", "\"\x7d\x7d\n"]).length = 0 :=
  ⟨rfl, rfl, rfl⟩

/-- C3 (amended, proved): the stream consumer attempts to decode each
transport chunk independently as one complete JSON record, with no
line-boundary splitting or buffering of partial lines; a record split across
two chunks fails decoding on each fragment and emits zero events, while the
same bytes arriving in a single chunk decode and emit exactly one event. -/
theorem claim3_chunk_decoding :
    jsonParse "\x7b\"data\":\x7b\"id\":\"1" = none ∧
    jsonParse "\"\x7d\x7d\n" = none ∧
    streamOnData connectToSampledStreamOnData
      ["\x7b\"data\":\x7b\"id\":\"1", "\"\x7d\x7d\n"] = [] ∧
    streamOnData connectToFilteredStreamOnData
      ["\x7b\"data\":\x7b\"id\":\"1", "\"\x7d\x7d\n"] = [] ∧
    streamOnData connectToSampledStreamOnData ["\x7b\"data\":\x7b\"id\":\"1\"\x7d\x7d\n"] =
      [{ id := some (.str "1"), raw := .obj [("data", .obj [("id", .str "1")])] }] :=
  ⟨rfl, rfl, rfl, rfl, rfl⟩

/-- A chunk whose JSON decoding throws produces no event on either stream. -/
lemma streamHandler_none_of_parse_none (k : StreamKind) (chunk : String)
    (h : jsonParse chunk = none) : streamHandler k chunk = none := by
  cases k <;>
    simp [streamHandler, connectToFilteredStreamOnData, connectToSampledStreamOnData, h]

/-- C8 (confirmed): on either stream connection, a record (chunk) that fails
JSON decoding is dropped without terminating the connection or the consumer:
the events before it are delivered, the events after it are delivered, and a
subsequent well-formed record is still decoded and delivered as an event. -/
theorem claim8_decode_failure_recovery (k : StreamKind) (pre post : List String)
    (bad good : String) (e : StreamEvent)
    (hbad : jsonParse bad = none) (hgood : streamHandler k good = some e) :
    streamOnData (streamHandler k) (pre ++ bad :: (post ++ [good])) =
      streamOnData (streamHandler k) pre ++ streamOnData (streamHandler k) post ++ [e] := by
  have hb : streamHandler k bad = none := streamHandler_none_of_parse_none k bad hbad
  simp [streamOnData, List.filterMap_append, List.filterMap_cons, hb, hgood]

/-- C8 witness: a malformed chunk followed by a well-formed record on the
sampled stream: the bad chunk is dropped and the good record is delivered. -/
theorem claim8_decode_failure_recovery_witness :
    jsonParse "\x7b" = none ∧
    streamHandler StreamKind.sampled "\x7b\"data\":\x7b\"id\":\"2\"\x7d\x7d" =
      some (.sampledTweetCreate
        { id := some (.str "2"), raw := .obj [("data", .obj [("id", .str "2")])] }) ∧
    streamOnData (streamHandler StreamKind.sampled)
        (([] : List String) ++ "\x7b" ::
          (([] : List String) ++ ["\x7b\"data\":\x7b\"id\":\"2\"\x7d\x7d"])) =
      streamOnData (streamHandler StreamKind.sampled) [] ++
        streamOnData (streamHandler StreamKind.sampled) [] ++
        [.sampledTweetCreate
          { id := some (.str "2"), raw := .obj [("data", .obj [("id", .str "2")])] }] :=
  ⟨rfl, rfl,
    claim8_decode_failure_recovery StreamKind.sampled [] [] _ _ _ rfl rfl⟩

/-- C9 (counterexample): `createBook` performs no runtime validation: called
for a `SearchTweetsBook` with the required `query` option missing
(`undefined`), it does not fail with any invalid-argument condition — the
Book is constructed, with `query` left `undefined`. -/
theorem claim9_counterexample :
    Client.createBookSearchTweets { query := JsVal.undef } =
      .ok { hasMore := .boolv true, query := .undef, afterTweetId := .jsnull,
            beforeTweetId := .jsnull, afterTimestamp := .jsnull,
            beforeTimestamp := .jsnull, maxResultsPerPage := .jsnull } :=
  rfl

/-- C9 (amended, proved): `loginWithBearerToken` does validate eagerly — a
non-string token fails with the `INVALID_TYPE` condition before anything
else happens — but `createBook` performs no runtime validation of a
variant's required fields: every options object, including one whose
required `query` is missing or wrongly typed, constructs and returns the
Book (TypeScript checking is compile-time only). -/
theorem claim9_validation (c : ClientState) :
    (∀ v : JsVal, (∀ s : String, v ≠ JsVal.str s) →
      Client.loginWithBearerToken c v = .error (.invalidType "token" "string")) ∧
    (∀ opts : RawSearchTweetsBookOptions,
      Client.createBookSearchTweets opts =
        .ok { hasMore := .boolv true, query := opts.query,
              afterTweetId := jsNullCoalesce opts.afterTweetId,
              beforeTweetId := jsNullCoalesce opts.beforeTweetId,
              afterTimestamp := jsNullCoalesce opts.afterTimestamp,
              beforeTimestamp := jsNullCoalesce opts.beforeTimestamp,
              maxResultsPerPage := jsNullCoalesce opts.maxResultsPerPage }) := by
  constructor
  · intro v hv
    cases v with
    | str s => exact absurd rfl (hv s)
    | num n => rfl
    | boolv b => rfl
    | undef => rfl
    | jsnull => rfl
    | objv => rfl
  · intro opts
    rfl

/-- C9 witness: a numeric bearer token is rejected eagerly with the
invalid-type condition, and an empty options object still constructs a
Book. -/
theorem claim9_validation_witness :
    Client.loginWithBearerToken {} (JsVal.num 42) =
      .error (.invalidType "token" "string") ∧
    Client.createBookSearchTweets {} =
      .ok { hasMore := .boolv true, query := .undef, afterTweetId := .jsnull,
            beforeTweetId := .jsnull, afterTimestamp := .jsnull,
            beforeTimestamp := .jsnull, maxResultsPerPage := .jsnull } :=
  ⟨(claim9_validation {}).1 (JsVal.num 42) (by intro s h; cases h),
    (claim9_validation {}).2 {}⟩
